import Mathlib

/-!
Verification of the thermal control engine and fan actuator of the
radxa-penta-sata-hat top board controller.  The C sources are shallowly
embedded: C doubles become rationals, C integer types become Int or Nat,
sensor readings and the wall clock become explicit parameters, and the
state mutations of thermal_calculate_duty_cycle_smart become a returned
updated state.
-/

/-- Truncation of a rational toward zero, the behaviour of a C cast from
double to an integer type (used for the time_t and int casts in the
sources). -/
def truncQ (q : ℚ) : ℤ := Int.tdiv q.num q.den

/-- Number of samples kept in the temperature history ring buffer
(TEMP_HISTORY_SIZE in thermal.h). -/
def TEMP_HISTORY_SIZE : ℕ := 10

/-- Maximum number of monitored storage devices (MAX_DEVICES in config.h). -/
def MAX_DEVICES : ℕ := 8

/-- Hardware PWM period in nanoseconds: fan_init sets pwm_period_ns to
PWM_PERIOD_US times 1000, with PWM_PERIOD_US defined as 40 in fan.h. -/
def PWM_PERIOD_NS : ℤ := 40 * 1000

/-- Four-level temperature thresholds, fan_config_t of config.h. -/
structure fan_config_t where
  lv0 : ℚ
  lv1 : ℚ
  lv2 : ℚ
  lv3 : ℚ

/-- Thermal control tunables, thermal_tunables_t of config.h. -/
structure thermal_tunables_t where
  hysteresis_c : ℚ
  deadband_c : ℚ
  trend_heat_c : ℚ
  trend_fast_heat_c : ℚ
  max_dc_change_per_cycle : ℚ
  min_effective_dc : ℚ
  up_rate_base_per_cycle : ℚ
  up_rate_trend_gain : ℚ
  up_rate_max_per_cycle : ℚ
  down_rate_per_cycle : ℚ
  cooldown_hold_sec : ℚ

/-- Daemon configuration, config_t of config.h.  The OLED rotation flag is
omitted because the thermal and fan code modelled here never reads it. -/
structure config_t where
  fan : fan_config_t
  fan_ssd : fan_config_t
  fan_enabled : Bool
  thermal : thermal_tunables_t

/-- Thermal control state, thermal_state_t of thermal.h.  The two fixed C
arrays of length TEMP_HISTORY_SIZE are modelled as lists. -/
structure thermal_state_t where
  cpu_temps : List ℚ
  ssd_temps : List ℤ
  history_index : ℕ
  history_count : ℕ
  last_duty_cycle : ℚ
  last_cpu_temp : ℚ
  last_ssd_temp : ℤ
  stable_cycles : ℕ
  hold_until : ℤ

/-- State produced by thermal_state_init in thermal.c (memset to zero). -/
def thermal_state_init : thermal_state_t :=
  { cpu_temps := List.replicate TEMP_HISTORY_SIZE 0
    ssd_temps := List.replicate TEMP_HISTORY_SIZE 0
    history_index := 0
    history_count := 0
    last_duty_cycle := 0
    last_cpu_temp := 0
    last_ssd_temp := 0
    stable_cycles := 0
    hold_until := 0 }

/-- Concrete all-zero-history state that has already been stable for six
cycles, used as a witness input. -/
def stable6_state : thermal_state_t :=
  { cpu_temps := [0,0,0,0,0,0,0,0,0,0]
    ssd_temps := [0,0,0,0,0,0,0,0,0,0]
    history_index := 0
    history_count := 0
    last_duty_cycle := 0
    last_cpu_temp := 0
    last_ssd_temp := 0
    stable_cycles := 6
    hold_until := 0 }

/-- Concrete all-zero-history state whose current duty is one half, used
as a witness input. -/
def half_duty_state : thermal_state_t :=
  { cpu_temps := [0,0,0,0,0,0,0,0,0,0]
    ssd_temps := [0,0,0,0,0,0,0,0,0,0]
    history_index := 0
    history_count := 0
    last_duty_cycle := 1/2
    last_cpu_temp := 0
    last_ssd_temp := 0
    stable_cycles := 0
    hold_until := 0 }

/-- Mean of the first count entries of the history (calculate_moving_average
in thermal.c); zero when count is zero. -/
def calculate_moving_average (history : List ℚ) (count : ℕ) : ℚ :=
  if count = 0 then 0 else (history.take count).sum / (count : ℚ)

/-- Integer mean of the first count entries (calculate_moving_average_int in
thermal.c); C integer division truncates toward zero. -/
def calculate_moving_average_int (history : List ℤ) (count : ℕ) : ℤ :=
  if count = 0 then 0 else Int.tdiv (history.take count).sum (count : ℤ)

/-- Trend of a rational history: mean of the newer half minus mean of the
older half (calculate_temp_trend in thermal.c); zero below 3 samples. -/
def calculate_temp_trend (history : List ℚ) (count : ℕ) : ℚ :=
  if count < 3 then 0
  else
    let half : ℕ := count / 2
    let older_sum : ℚ := (history.take half).sum
    let recent_sum : ℚ := ((history.drop half).take half).sum
    recent_sum / (half : ℚ) - older_sum / (half : ℚ)

/-- Trend of an integer history (calculate_temp_trend_int in thermal.c):
integer sums, then double division, modelled as rational division. -/
def calculate_temp_trend_int (history : List ℤ) (count : ℕ) : ℚ :=
  if count < 3 then 0
  else
    let half : ℕ := count / 2
    let older_sum : ℤ := (history.take half).sum
    let recent_sum : ℤ := ((history.drop half).take half).sum
    (recent_sum : ℚ) / (half : ℚ) - (older_sum : ℚ) / (half : ℚ)

/-- Step mapping from a temperature to a duty cycle with hysteresis
(config_temp_to_dc_with_hysteresis in thermal.c): when heating the
thresholds are used as configured, otherwise they are lowered by the
hysteresis amount. -/
def config_temp_to_dc_with_hysteresis (fan_cfg : fan_config_t) (temp : ℚ)
    (hysteresis_c : ℚ) (is_heating : Bool) : ℚ :=
  let hysteresis : ℚ := if is_heating then 0 else hysteresis_c
  if temp ≥ fan_cfg.lv3 - hysteresis then 1
  else if temp ≥ fan_cfg.lv2 - hysteresis then 3/4
  else if temp ≥ fan_cfg.lv1 - hysteresis then 1/2
  else if temp ≥ fan_cfg.lv0 - hysteresis then 1/4
  else 0

/-- Modelled from the spec: the four-level step function mapping a
smoothed temperature to a duty cycle, written from the words of the
specification for comparison with config_temp_to_dc_with_hysteresis. -/
def spec_step_duty (l0 l1 l2 l3 T : ℚ) : ℚ :=
  if T ≥ l3 then 1
  else if T ≥ l2 then 3/4
  else if T ≥ l1 then 1/2
  else if T ≥ l0 then 1/4
  else 0

/-- Maximum of the first min(ssd_count, MAX_DEVICES) reported device
temperatures, starting from 0, as the max_ssd_temp loop of
thermal_calculate_duty_cycle_smart computes it. -/
def max_ssd_of (ssd_list : List ℤ) (ssd_count : ℕ) : ℤ :=
  (ssd_list.take (min ssd_count MAX_DEVICES)).foldl max 0

/-- History ingestion: store the new CPU and device samples at
history_index, advance the ring index modulo TEMP_HISTORY_SIZE, and
saturate history_count at TEMP_HISTORY_SIZE. -/
def ingest_state (st : thermal_state_t) (cpu_temp : ℚ) (ssd_max : ℤ) :
    thermal_state_t :=
  { st with
    cpu_temps := st.cpu_temps.set st.history_index cpu_temp
    ssd_temps := st.ssd_temps.set st.history_index ssd_max
    history_index := (st.history_index + 1) % TEMP_HISTORY_SIZE
    history_count :=
      if st.history_count < TEMP_HISTORY_SIZE then st.history_count + 1
      else st.history_count }

/-- Smoothed CPU temperature of the current cycle (cpu_avg in thermal.c),
computed on the freshly ingested history. -/
def cpu_avg_of (st : thermal_state_t) (cpu_temp : ℚ) (ssd_max : ℤ) : ℚ :=
  calculate_moving_average (ingest_state st cpu_temp ssd_max).cpu_temps
    (ingest_state st cpu_temp ssd_max).history_count

/-- Smoothed device temperature of the current cycle (ssd_avg in
thermal.c). -/
def ssd_avg_of (st : thermal_state_t) (cpu_temp : ℚ) (ssd_max : ℤ) : ℤ :=
  calculate_moving_average_int (ingest_state st cpu_temp ssd_max).ssd_temps
    (ingest_state st cpu_temp ssd_max).history_count

/-- CPU temperature trend of the current cycle (cpu_trend in thermal.c). -/
def cpu_trend_of (st : thermal_state_t) (cpu_temp : ℚ) (ssd_max : ℤ) : ℚ :=
  calculate_temp_trend (ingest_state st cpu_temp ssd_max).cpu_temps
    (ingest_state st cpu_temp ssd_max).history_count

/-- Device temperature trend of the current cycle (ssd_trend in
thermal.c). -/
def ssd_trend_of (st : thermal_state_t) (cpu_temp : ℚ) (ssd_max : ℤ) : ℚ :=
  calculate_temp_trend_int (ingest_state st cpu_temp ssd_max).ssd_temps
    (ingest_state st cpu_temp ssd_max).history_count

/-- Raw per-cycle duty target: the larger of the CPU and device step
targets, each computed on its smoothed temperature with hysteresis and its
own heating test (dc_target before the dead-band block in thermal.c). -/
def dc_target_raw (cfg : config_t) (st : thermal_state_t) (cpu_temp : ℚ)
    (ssd_max : ℤ) : ℚ :=
  let dc_cpu : ℚ := config_temp_to_dc_with_hysteresis cfg.fan
    (cpu_avg_of st cpu_temp ssd_max) cfg.thermal.hysteresis_c
    (decide (cpu_trend_of st cpu_temp ssd_max > cfg.thermal.trend_heat_c))
  let dc_ssd : ℚ := config_temp_to_dc_with_hysteresis cfg.fan_ssd
    ((ssd_avg_of st cpu_temp ssd_max : ℤ) : ℚ) cfg.thermal.hysteresis_c
    (decide (ssd_trend_of st cpu_temp ssd_max > cfg.thermal.trend_heat_c))
  if dc_cpu > dc_ssd then dc_cpu else dc_ssd

/-- Largest of the smoothed CPU delta and the smoothed device delta since
the previous cycle (max_temp_change in thermal.c); the device delta is an
integer difference cast to double. -/
def max_temp_change_of (st : thermal_state_t) (cpu_temp : ℚ) (ssd_max : ℤ) : ℚ :=
  let tc : ℚ := cpu_avg_of st cpu_temp ssd_max - st.last_cpu_temp
  let ts : ℤ := ssd_avg_of st cpu_temp ssd_max - st.last_ssd_temp
  if tc > (ts : ℚ) then tc else (ts : ℚ)

/-- Dead-band suppression condition, exactly the test guarding
skip_adjustment in thermal_calculate_duty_cycle_smart. -/
def deadband_skip (cfg : config_t) (st : thermal_state_t) (cpu_temp : ℚ)
    (ssd_max : ℤ) : Prop :=
  5 < st.stable_cycles ∧
  |max_temp_change_of st cpu_temp ssd_max| < cfg.thermal.deadband_c ∧
  |dc_target_raw cfg st cpu_temp ssd_max - st.last_duty_cycle| < 15/100

instance (cfg : config_t) (st : thermal_state_t) (cpu_temp : ℚ) (ssd_max : ℤ) :
    Decidable (deadband_skip cfg st cpu_temp ssd_max) := by
  unfold deadband_skip
  infer_instance

/-- Duty target after dead-band suppression: forced back to the previous
duty cycle when the skip condition holds. -/
def dc_target_of (cfg : config_t) (st : thermal_state_t) (cpu_temp : ℚ)
    (ssd_max : ℤ) : ℚ :=
  if deadband_skip cfg st cpu_temp ssd_max then st.last_duty_cycle
  else dc_target_raw cfg st cpu_temp ssd_max

/-- Heat trend: the larger of the CPU and device trends (heat_trend in
thermal.c). -/
def heat_trend_of (st : thermal_state_t) (cpu_temp : ℚ) (ssd_max : ℤ) : ℚ :=
  if cpu_trend_of st cpu_temp ssd_max > ssd_trend_of st cpu_temp ssd_max
  then cpu_trend_of st cpu_temp ssd_max
  else ssd_trend_of st cpu_temp ssd_max

/-- First stage of the adaptive upward rate: base rate, plus the trend
gain contribution when the heat trend is positive. -/
def up_rate_trended (t : thermal_tunables_t) (heat_trend : ℚ) : ℚ :=
  if heat_trend > 0
  then t.up_rate_base_per_cycle + t.up_rate_trend_gain * heat_trend
  else t.up_rate_base_per_cycle

/-- Second stage: the legacy max_dc_change_per_cycle cap replaces the rate
when that cap is positive and smaller. -/
def up_rate_capped (t : thermal_tunables_t) (heat_trend : ℚ) : ℚ :=
  if t.max_dc_change_per_cycle > 0 ∧
      t.max_dc_change_per_cycle < up_rate_trended t heat_trend
  then t.max_dc_change_per_cycle else up_rate_trended t heat_trend

/-- Adaptive upward rate (up_rate in thermal.c): the staged rate clamped
to the explicit per-cycle maximum. -/
def up_rate_of (t : thermal_tunables_t) (heat_trend : ℚ) : ℚ :=
  if up_rate_capped t heat_trend > t.up_rate_max_per_cycle
  then t.up_rate_max_per_cycle else up_rate_capped t heat_trend

/-- Cooldown hold test (hold_active in thermal.c): the hold timestamp is
set and the current time is before it. -/
def hold_active_of (st : thermal_state_t) (now : ℤ) : Bool :=
  decide (st.hold_until ≠ 0 ∧ now < st.hold_until)

/-- Asymmetric rate limiting of the proposed duty change (the dc_change
branch of thermal_calculate_duty_cycle_smart): upward steps are capped at
up_rate, downward steps are zeroed while the hold is active and otherwise
capped at down_rate_per_cycle in magnitude. -/
def limited_change (t : thermal_tunables_t) (dc_change : ℚ) (up_rate : ℚ)
    (hold : Bool) : ℚ :=
  if dc_change > up_rate then up_rate
  else if dc_change < 0 then
    if hold then 0
    else if dc_change < -t.down_rate_per_cycle then -t.down_rate_per_cycle
    else dc_change
  else dc_change

/-- Final clamp of the new duty cycle to the unit interval. -/
def clamp01 (x : ℚ) : ℚ := if x < 0 then 0 else if x > 1 then 1 else x

/-- New duty cycle of a cycle: previous duty plus the rate-limited change,
clamped to the unit interval (dc_new in thermal.c). -/
def dc_new_of (cfg : config_t) (st : thermal_state_t) (now : ℤ)
    (cpu_temp : ℚ) (ssd_max : ℤ) : ℚ :=
  clamp01 (st.last_duty_cycle +
    limited_change cfg.thermal
      (dc_target_of cfg st cpu_temp ssd_max - st.last_duty_cycle)
      (up_rate_of cfg.thermal (heat_trend_of st cpu_temp ssd_max))
      (hold_active_of st now))

/-- One enabled cycle of thermal_calculate_duty_cycle_smart: the returned
duty together with the updated state (history ingestion, stability
bookkeeping, cooldown hold restart on increase, persisted averages). -/
def smart_core (cfg : config_t) (st : thermal_state_t) (now : ℤ)
    (cpu_temp : ℚ) (ssd_max : ℤ) : ℚ × thermal_state_t :=
  let dc_new := dc_new_of cfg st now cpu_temp ssd_max
  (dc_new,
   { ingest_state st cpu_temp ssd_max with
     last_duty_cycle := dc_new
     last_cpu_temp := cpu_avg_of st cpu_temp ssd_max
     last_ssd_temp := ssd_avg_of st cpu_temp ssd_max
     stable_cycles :=
       if dc_new = st.last_duty_cycle then st.stable_cycles + 1 else 0
     hold_until :=
       if dc_new > st.last_duty_cycle
       then now + truncQ cfg.thermal.cooldown_hold_sec
       else st.hold_until })

/-- The smart thermal computation of thermal.c, with the sensor readings
and the wall clock as parameters: when the fan is disabled it returns 0
and leaves the state untouched, otherwise it runs one engine cycle on the
maximum of the reported device temperatures. -/
def thermal_calculate_duty_cycle_smart (cfg : config_t) (st : thermal_state_t)
    (now : ℤ) (cpu_temp : ℚ) (ssd_list : List ℤ) (ssd_count : ℕ) :
    ℚ × thermal_state_t :=
  if cfg.fan_enabled
  then smart_core cfg st now cpu_temp (max_ssd_of ssd_list ssd_count)
  else (0, st)

/-- Default configuration values set by config_load in config.c when no
configuration file overrides them (min_effective_dc is never assigned a
default by config_load; it is modelled as 0). -/
def default_config : config_t :=
  { fan := { lv0 := 55, lv1 := 62, lv2 := 70, lv3 := 78 }
    fan_ssd := { lv0 := 45, lv1 := 50, lv2 := 55, lv3 := 60 }
    fan_enabled := true
    thermal :=
      { hysteresis_c := 3
        deadband_c := 3/2
        trend_heat_c := 3/10
        trend_fast_heat_c := 1
        max_dc_change_per_cycle := 1/10
        min_effective_dc := 0
        up_rate_base_per_cycle := 7/100
        up_rate_trend_gain := 1/5
        up_rate_max_per_cycle := 3/10
        down_rate_per_cycle := 1/20
        cooldown_hold_sec := 20 } }

/-- Fan actuator state: the fields of fan_t in fan.h that
fan_set_duty_cycle reads or writes. -/
structure fan_t where
  use_hardware_pwm : Bool
  pwm_period_ns : ℤ
  duty_cycle : ℚ

/-- Concrete hardware PWM actuator state with the 40 microsecond period,
used as a witness and counterexample input. -/
def hw_fan : fan_t :=
  { use_hardware_pwm := true
    pwm_period_ns := PWM_PERIOD_NS
    duty_cycle := 0 }

/-- Result of one fan_set_duty_cycle call: the updated actuator state, the
duty_cycle value written to the sysfs node when a write happened, and the
C return code. -/
structure fan_set_result where
  fan : fan_t
  written_ns : Option ℤ
  ret : ℤ

/-- The fan_set_duty_cycle function of the fan module: clamp the requested
duty to the unit interval, store it, and on the hardware PWM backend write
the integer truncation of period times duty to the duty_cycle node; the
call fails with -1 when that node cannot be opened. -/
def fan_set_duty_cycle (fan : fan_t) (duty : ℚ) (can_open_duty_node : Bool) :
    fan_set_result :=
  let d : ℚ := if duty < 0 then 0 else if duty > 1 then 1 else duty
  let fan2 : fan_t := { fan with duty_cycle := d }
  if fan.use_hardware_pwm then
    if can_open_duty_node then
      { fan := fan2
        written_ns := some (truncQ ((fan.pwm_period_ns : ℚ) * d))
        ret := 0 }
    else { fan := fan2, written_ns := none, ret := -1 }
  else { fan := fan2, written_ns := none, ret := 0 }

/-- One duty application step of the main control loop in the daemon entry
point: fan_set_duty_cycle is called only when the newly computed duty
differs from the previously computed one, and last_dc is overwritten with
the new duty inside that branch regardless of whether the setter
succeeded.  The first component tells whether the setter was called, the
second is the new last_dc. -/
def main_loop_step (last_dc : ℚ) (dc : ℚ) (_set_duty_failed : Bool) :
    Bool × ℚ :=
  if dc ≠ last_dc then (true, dc) else (false, last_dc)

/-! Basic lemmas about the embedded helpers. -/

theorem truncQ_intCast (c : ℤ) : truncQ ((c : ℤ) : ℚ) = c := by
  simp [truncQ, Rat.num_intCast, Rat.den_intCast, Int.tdiv_one]

theorem truncQ_eq_floor {q : ℚ} (h : 0 ≤ q) : truncQ q = ⌊q⌋ := by
  rw [Rat.floor_def, truncQ,
    Int.tdiv_eq_ediv (Rat.num_nonneg.mpr h) (Int.natCast_nonneg q.den)]

theorem clamp01_nonneg (x : ℚ) : 0 ≤ clamp01 x := by
  unfold clamp01; split_ifs <;> linarith

theorem clamp01_le_one (x : ℚ) : clamp01 x ≤ 1 := by
  unfold clamp01; split_ifs <;> linarith

theorem clamp01_eq_self {x : ℚ} (h0 : 0 ≤ x) (h1 : x ≤ 1) : clamp01 x = x := by
  unfold clamp01; split_ifs <;> linarith

theorem clamp01_add_le {last ch u : ℚ} (hl0 : 0 ≤ last)
    (hch : ch ≤ u) (hu : 0 ≤ u) : clamp01 (last + ch) - last ≤ u := by
  unfold clamp01; split_ifs <;> linarith

theorem clamp01_add_ge {last ch d : ℚ} (hl1 : last ≤ 1)
    (hch : -d ≤ ch) (hd : 0 ≤ d) : -d ≤ clamp01 (last + ch) - last := by
  unfold clamp01; split_ifs <;> linarith

theorem dc_with_hysteresis_nonneg (f : fan_config_t) (T h : ℚ) (b : Bool) :
    0 ≤ config_temp_to_dc_with_hysteresis f T h b := by
  simp only [config_temp_to_dc_with_hysteresis]
  split_ifs <;> norm_num

theorem dc_with_hysteresis_le_one (f : fan_config_t) (T h : ℚ) (b : Bool) :
    config_temp_to_dc_with_hysteresis f T h b ≤ 1 := by
  simp only [config_temp_to_dc_with_hysteresis]
  split_ifs <;> norm_num

theorem dc_target_raw_nonneg (cfg : config_t) (st : thermal_state_t)
    (cpu_temp : ℚ) (ssd_max : ℤ) : 0 ≤ dc_target_raw cfg st cpu_temp ssd_max := by
  simp only [dc_target_raw]
  split_ifs <;> apply dc_with_hysteresis_nonneg

theorem dc_target_of_skip (cfg : config_t) (st : thermal_state_t)
    (cpu_temp : ℚ) (ssd_max : ℤ) (h : deadband_skip cfg st cpu_temp ssd_max) :
    dc_target_of cfg st cpu_temp ssd_max = st.last_duty_cycle := by
  unfold dc_target_of; rw [if_pos h]

theorem dc_target_of_noskip (cfg : config_t) (st : thermal_state_t)
    (cpu_temp : ℚ) (ssd_max : ℤ) (h : ¬ deadband_skip cfg st cpu_temp ssd_max) :
    dc_target_of cfg st cpu_temp ssd_max = dc_target_raw cfg st cpu_temp ssd_max := by
  unfold dc_target_of; rw [if_neg h]

theorem dc_target_of_nonneg (cfg : config_t) (st : thermal_state_t)
    (cpu_temp : ℚ) (ssd_max : ℤ) (h0 : 0 ≤ st.last_duty_cycle) :
    0 ≤ dc_target_of cfg st cpu_temp ssd_max := by
  unfold dc_target_of
  split_ifs
  · exact h0
  · exact dc_target_raw_nonneg cfg st cpu_temp ssd_max

theorem up_rate_of_le (t : thermal_tunables_t) (h : ℚ) :
    up_rate_of t h ≤ t.up_rate_max_per_cycle := by
  unfold up_rate_of
  split_ifs <;> linarith

theorem up_rate_trended_nonneg (t : thermal_tunables_t) (h : ℚ)
    (hb : 0 ≤ t.up_rate_base_per_cycle) (hg : 0 ≤ t.up_rate_trend_gain) :
    0 ≤ up_rate_trended t h := by
  unfold up_rate_trended
  split_ifs with hh
  · have := mul_nonneg hg (le_of_lt hh); linarith
  · exact hb

theorem up_rate_of_nonneg (t : thermal_tunables_t) (h : ℚ)
    (hb : 0 ≤ t.up_rate_base_per_cycle) (hg : 0 ≤ t.up_rate_trend_gain)
    (hm : 0 ≤ t.up_rate_max_per_cycle) : 0 ≤ up_rate_of t h := by
  have h1 := up_rate_trended_nonneg t h hb hg
  have h2 : 0 ≤ up_rate_capped t h := by
    unfold up_rate_capped
    split_ifs with hc
    · linarith [hc.1]
    · exact h1
  unfold up_rate_of
  split_ifs <;> linarith

theorem limited_change_le (t : thermal_tunables_t) {ch u : ℚ} (hold : Bool)
    (hu : 0 ≤ u) (hd : 0 ≤ t.down_rate_per_cycle) :
    limited_change t ch u hold ≤ u := by
  unfold limited_change
  split_ifs <;> linarith

theorem limited_change_ge (t : thermal_tunables_t) {ch u : ℚ} (hold : Bool)
    (hu : 0 ≤ u) (hd : 0 ≤ t.down_rate_per_cycle) :
    -t.down_rate_per_cycle ≤ limited_change t ch u hold := by
  unfold limited_change
  split_ifs <;> linarith

theorem limited_change_zero (t : thermal_tunables_t) (u : ℚ) (hold : Bool)
    (hu : 0 ≤ u) : limited_change t 0 u hold = 0 := by
  unfold limited_change
  split_ifs <;> linarith

theorem hold_active_of_true {st : thermal_state_t} {now : ℤ}
    (h1 : st.hold_until ≠ 0) (h2 : now < st.hold_until) :
    hold_active_of st now = true := by
  simp only [hold_active_of, decide_eq_true_eq]
  exact ⟨h1, h2⟩

theorem hold_active_of_false {st : thermal_state_t} {now : ℤ}
    (h : st.hold_until ≤ now) : hold_active_of st now = false := by
  simp only [hold_active_of, decide_eq_false_iff_not]
  rintro ⟨-, h2⟩
  omega

/-! Projection lemmas for an enabled cycle of the smart computation. -/

theorem smart_fst (cfg : config_t) (st : thermal_state_t) (now : ℤ)
    (cpu_temp : ℚ) (ssd_list : List ℤ) (ssd_count : ℕ)
    (hen : cfg.fan_enabled = true) :
    (thermal_calculate_duty_cycle_smart cfg st now cpu_temp ssd_list ssd_count).1 =
      dc_new_of cfg st now cpu_temp (max_ssd_of ssd_list ssd_count) := by
  simp [thermal_calculate_duty_cycle_smart, hen, smart_core]

theorem smart_snd_last (cfg : config_t) (st : thermal_state_t) (now : ℤ)
    (cpu_temp : ℚ) (ssd_list : List ℤ) (ssd_count : ℕ)
    (hen : cfg.fan_enabled = true) :
    (thermal_calculate_duty_cycle_smart cfg st now cpu_temp ssd_list ssd_count).2.last_duty_cycle =
      (thermal_calculate_duty_cycle_smart cfg st now cpu_temp ssd_list ssd_count).1 := by
  simp [thermal_calculate_duty_cycle_smart, hen, smart_core]

theorem smart_snd_stable (cfg : config_t) (st : thermal_state_t) (now : ℤ)
    (cpu_temp : ℚ) (ssd_list : List ℤ) (ssd_count : ℕ)
    (hen : cfg.fan_enabled = true) :
    (thermal_calculate_duty_cycle_smart cfg st now cpu_temp ssd_list ssd_count).2.stable_cycles =
      if (thermal_calculate_duty_cycle_smart cfg st now cpu_temp ssd_list ssd_count).1 =
          st.last_duty_cycle
      then st.stable_cycles + 1 else 0 := by
  simp [thermal_calculate_duty_cycle_smart, hen, smart_core]

theorem smart_snd_hold (cfg : config_t) (st : thermal_state_t) (now : ℤ)
    (cpu_temp : ℚ) (ssd_list : List ℤ) (ssd_count : ℕ)
    (hen : cfg.fan_enabled = true) :
    (thermal_calculate_duty_cycle_smart cfg st now cpu_temp ssd_list ssd_count).2.hold_until =
      if (thermal_calculate_duty_cycle_smart cfg st now cpu_temp ssd_list ssd_count).1 >
          st.last_duty_cycle
      then now + truncQ cfg.thermal.cooldown_hold_sec else st.hold_until := by
  simp [thermal_calculate_duty_cycle_smart, hen, smart_core]

/-! Behaviour lemmas shared by several claims. -/

theorem dc_new_of_skip (cfg : config_t) (st : thermal_state_t) (now : ℤ)
    (cpu_temp : ℚ) (ssd_max : ℤ)
    (hb : 0 ≤ cfg.thermal.up_rate_base_per_cycle)
    (hg : 0 ≤ cfg.thermal.up_rate_trend_gain)
    (hm : 0 ≤ cfg.thermal.up_rate_max_per_cycle)
    (hl0 : 0 ≤ st.last_duty_cycle) (hl1 : st.last_duty_cycle ≤ 1)
    (hskip : deadband_skip cfg st cpu_temp ssd_max) :
    dc_new_of cfg st now cpu_temp ssd_max = st.last_duty_cycle := by
  have hu := up_rate_of_nonneg cfg.thermal
    (heat_trend_of st cpu_temp ssd_max) hb hg hm
  rw [dc_new_of, dc_target_of_skip cfg st cpu_temp ssd_max hskip, sub_self,
    limited_change_zero _ _ _ hu, add_zero, clamp01_eq_self hl0 hl1]

theorem dc_new_of_decrease_hold (cfg : config_t) (st : thermal_state_t)
    (now : ℤ) (cpu_temp : ℚ) (ssd_max : ℤ)
    (hb : 0 ≤ cfg.thermal.up_rate_base_per_cycle)
    (hg : 0 ≤ cfg.thermal.up_rate_trend_gain)
    (hm : 0 ≤ cfg.thermal.up_rate_max_per_cycle)
    (hl0 : 0 ≤ st.last_duty_cycle) (hl1 : st.last_duty_cycle ≤ 1)
    (hhold : hold_active_of st now = true)
    (htgt : dc_target_of cfg st cpu_temp ssd_max < st.last_duty_cycle) :
    dc_new_of cfg st now cpu_temp ssd_max = st.last_duty_cycle := by
  have hu := up_rate_of_nonneg cfg.thermal
    (heat_trend_of st cpu_temp ssd_max) hb hg hm
  rw [dc_new_of, hhold]
  rw [limited_change, if_neg (by linarith), if_pos (by linarith),
    if_pos rfl, add_zero, clamp01_eq_self hl0 hl1]

theorem dc_new_of_decrease_nohold (cfg : config_t) (st : thermal_state_t)
    (now : ℤ) (cpu_temp : ℚ) (ssd_max : ℤ)
    (hb : 0 ≤ cfg.thermal.up_rate_base_per_cycle)
    (hg : 0 ≤ cfg.thermal.up_rate_trend_gain)
    (hm : 0 ≤ cfg.thermal.up_rate_max_per_cycle)
    (hd : 0 ≤ cfg.thermal.down_rate_per_cycle)
    (hl0 : 0 ≤ st.last_duty_cycle) (hl1 : st.last_duty_cycle ≤ 1)
    (hhold : hold_active_of st now = false)
    (htgt : dc_target_of cfg st cpu_temp ssd_max < st.last_duty_cycle) :
    dc_new_of cfg st now cpu_temp ssd_max =
      max (dc_target_of cfg st cpu_temp ssd_max)
        (st.last_duty_cycle - cfg.thermal.down_rate_per_cycle) := by
  have hu := up_rate_of_nonneg cfg.thermal
    (heat_trend_of st cpu_temp ssd_max) hb hg hm
  have htgt0 := dc_target_of_nonneg cfg st cpu_temp ssd_max hl0
  rw [dc_new_of, hhold]
  rw [limited_change, if_neg (by linarith), if_pos (by linarith)]
  simp only [Bool.false_eq_true, if_false]
  split_ifs with hdr
  · rw [clamp01_eq_self (by linarith) (by linarith)]
    rw [max_eq_right (by linarith)]
    ring
  · rw [add_sub_cancel, clamp01_eq_self htgt0 (by linarith)]
    rw [max_eq_left (by linarith)]

/-! Claim theorems. -/

/-- C10: if fan_enabled is false, thermal_calculate_duty_cycle_smart
returns 0.0 immediately and leaves every field of the thermal state
unchanged; in particular no history sample is ingested, the bookkeeping
fields are not updated, and the returned 0.0 bypasses rate limiting
against last_duty_cycle. -/
theorem C10_disabled_returns_zero_and_frames_state (cfg : config_t)
    (st : thermal_state_t) (now : ℤ) (cpu_temp : ℚ) (ssd_list : List ℤ)
    (ssd_count : ℕ) (hdis : cfg.fan_enabled = false) :
    thermal_calculate_duty_cycle_smart cfg st now cpu_temp ssd_list ssd_count =
      (0, st) := by
  simp [thermal_calculate_duty_cycle_smart, hdis]

/-- Witness for C10 at a concrete disabled configuration. -/
theorem C10_disabled_returns_zero_and_frames_state_witness :
    ({ default_config with fan_enabled := false } : config_t).fan_enabled = false ∧
    thermal_calculate_duty_cycle_smart { default_config with fan_enabled := false }
      thermal_state_init 100 20 [] 0 = (0, thermal_state_init) :=
  ⟨rfl, C10_disabled_returns_zero_and_frames_state _ thermal_state_init 100 20 [] 0 rfl⟩

/-- C1: the duty returned by the smart computation lies in the unit
interval, and the last_duty_cycle stored back into the state equals the
returned value (hence also lies in the unit interval).  The hypothesis
states the invariant that a disabled configuration carries a zero duty in
its state, which holds for every state reachable from thermal_state_init. -/
theorem C1_duty_in_unit_interval (cfg : config_t) (st : thermal_state_t)
    (now : ℤ) (cpu_temp : ℚ) (ssd_list : List ℤ) (ssd_count : ℕ)
    (hdis : cfg.fan_enabled = false → st.last_duty_cycle = 0) :
    0 ≤ (thermal_calculate_duty_cycle_smart cfg st now cpu_temp ssd_list ssd_count).1 ∧
    (thermal_calculate_duty_cycle_smart cfg st now cpu_temp ssd_list ssd_count).1 ≤ 1 ∧
    (thermal_calculate_duty_cycle_smart cfg st now cpu_temp ssd_list ssd_count).2.last_duty_cycle =
      (thermal_calculate_duty_cycle_smart cfg st now cpu_temp ssd_list ssd_count).1 ∧
    0 ≤ (thermal_calculate_duty_cycle_smart cfg st now cpu_temp ssd_list ssd_count).2.last_duty_cycle ∧
    (thermal_calculate_duty_cycle_smart cfg st now cpu_temp ssd_list ssd_count).2.last_duty_cycle ≤ 1 := by
  cases hen : cfg.fan_enabled with
  | false =>
    have h0 := hdis hen
    simp [thermal_calculate_duty_cycle_smart, hen, h0]
  | true =>
    have h1 := smart_fst cfg st now cpu_temp ssd_list ssd_count hen
    have h2 := smart_snd_last cfg st now cpu_temp ssd_list ssd_count hen
    rw [h2, h1]
    unfold dc_new_of
    exact ⟨clamp01_nonneg _, clamp01_le_one _, rfl, clamp01_nonneg _,
      clamp01_le_one _⟩

/-- Witness for C1 at the default configuration and initial state. -/
theorem C1_duty_in_unit_interval_witness :
    (default_config.fan_enabled = false → thermal_state_init.last_duty_cycle = 0) ∧
    (0 ≤ (thermal_calculate_duty_cycle_smart default_config thermal_state_init 100 20 [] 0).1 ∧
     (thermal_calculate_duty_cycle_smart default_config thermal_state_init 100 20 [] 0).1 ≤ 1 ∧
     (thermal_calculate_duty_cycle_smart default_config thermal_state_init 100 20 [] 0).2.last_duty_cycle =
       (thermal_calculate_duty_cycle_smart default_config thermal_state_init 100 20 [] 0).1 ∧
     0 ≤ (thermal_calculate_duty_cycle_smart default_config thermal_state_init 100 20 [] 0).2.last_duty_cycle ∧
     (thermal_calculate_duty_cycle_smart default_config thermal_state_init 100 20 [] 0).2.last_duty_cycle ≤ 1) :=
  ⟨by simp [default_config],
   C1_duty_in_unit_interval default_config thermal_state_init 100 20 [] 0
     (by simp [default_config])⟩

/-- C4: on the heating path config_temp_to_dc_with_hysteresis is exactly
the four-level step function on the configured thresholds; on the cooling
path it is the same step function on the thresholds lowered by the
hysteresis amount, so any temperature at or above lv3 minus the
hysteresis still maps to duty 1.00. -/
theorem C4_hysteresis_step (f : fan_config_t) (T h : ℚ)
    (_hord : f.lv0 < f.lv1 ∧ f.lv1 < f.lv2 ∧ f.lv2 < f.lv3) (_hh : 0 ≤ h) :
    config_temp_to_dc_with_hysteresis f T h true =
      spec_step_duty f.lv0 f.lv1 f.lv2 f.lv3 T ∧
    config_temp_to_dc_with_hysteresis f T h false =
      spec_step_duty (f.lv0 - h) (f.lv1 - h) (f.lv2 - h) (f.lv3 - h) T ∧
    (T ≥ f.lv3 - h → config_temp_to_dc_with_hysteresis f T h false = 1) := by
  refine ⟨?_, ?_, fun hT => ?_⟩
  · simp [config_temp_to_dc_with_hysteresis, spec_step_duty]
  · simp [config_temp_to_dc_with_hysteresis, spec_step_duty]
  · simp only [config_temp_to_dc_with_hysteresis, Bool.false_eq_true,
      if_false]
    rw [if_pos hT]

/-- Witness for C4 at the default CPU thresholds with temperature 76 and
hysteresis 3. -/
theorem C4_hysteresis_step_witness :
    (default_config.fan.lv0 < default_config.fan.lv1 ∧
     default_config.fan.lv1 < default_config.fan.lv2 ∧
     default_config.fan.lv2 < default_config.fan.lv3) ∧
    (0 : ℚ) ≤ 3 ∧
    (config_temp_to_dc_with_hysteresis default_config.fan 76 3 true =
       spec_step_duty default_config.fan.lv0 default_config.fan.lv1
         default_config.fan.lv2 default_config.fan.lv3 76 ∧
     config_temp_to_dc_with_hysteresis default_config.fan 76 3 false =
       spec_step_duty (default_config.fan.lv0 - 3) (default_config.fan.lv1 - 3)
         (default_config.fan.lv2 - 3) (default_config.fan.lv3 - 3) 76 ∧
     ((76 : ℚ) ≥ default_config.fan.lv3 - 3 →
       config_temp_to_dc_with_hysteresis default_config.fan 76 3 false = 1)) :=
  ⟨by norm_num [default_config], by norm_num,
   C4_hysteresis_step default_config.fan 76 3 (by norm_num [default_config])
     (by norm_num)⟩

/-- C2: with non-negative rate tunables and a duty state in the unit
interval (the reachable-state invariant, including zero duty for a
disabled configuration), one cycle changes the duty upward by at most
up_rate_max_per_cycle and downward by at most down_rate_per_cycle, and a
dead-band no-op cycle changes it by exactly 0. -/
theorem C2_rate_limit_invariant (cfg : config_t) (st : thermal_state_t)
    (now : ℤ) (cpu_temp : ℚ) (ssd_list : List ℤ) (ssd_count : ℕ)
    (hb : 0 ≤ cfg.thermal.up_rate_base_per_cycle)
    (hg : 0 ≤ cfg.thermal.up_rate_trend_gain)
    (hm : 0 ≤ cfg.thermal.up_rate_max_per_cycle)
    (hd : 0 ≤ cfg.thermal.down_rate_per_cycle)
    (hl0 : 0 ≤ st.last_duty_cycle) (hl1 : st.last_duty_cycle ≤ 1)
    (hdis : cfg.fan_enabled = false → st.last_duty_cycle = 0) :
    (thermal_calculate_duty_cycle_smart cfg st now cpu_temp ssd_list ssd_count).1 -
      st.last_duty_cycle ≤ cfg.thermal.up_rate_max_per_cycle ∧
    st.last_duty_cycle -
      (thermal_calculate_duty_cycle_smart cfg st now cpu_temp ssd_list ssd_count).1 ≤
      cfg.thermal.down_rate_per_cycle ∧
    (deadband_skip cfg st cpu_temp (max_ssd_of ssd_list ssd_count) →
      (thermal_calculate_duty_cycle_smart cfg st now cpu_temp ssd_list ssd_count).1 -
        st.last_duty_cycle = 0) := by
  cases hen : cfg.fan_enabled with
  | false =>
    have h0 := hdis hen
    have hr : (thermal_calculate_duty_cycle_smart cfg st now cpu_temp ssd_list ssd_count).1 = 0 := by
      simp [thermal_calculate_duty_cycle_smart, hen]
    rw [hr, h0]
    exact ⟨by linarith, by linarith, fun _ => by linarith⟩
  | true =>
    have h1 := smart_fst cfg st now cpu_temp ssd_list ssd_count hen
    have hu0 := up_rate_of_nonneg cfg.thermal
      (heat_trend_of st cpu_temp (max_ssd_of ssd_list ssd_count)) hb hg hm
    refine ⟨?_, ?_, fun hskip => ?_⟩
    · rw [h1]
      unfold dc_new_of
      exact clamp01_add_le hl0
        (le_trans (limited_change_le cfg.thermal _ hu0 hd) (up_rate_of_le _ _)) hm
    · rw [h1]
      unfold dc_new_of
      have h2 : -cfg.thermal.down_rate_per_cycle ≤
          clamp01 (st.last_duty_cycle + limited_change cfg.thermal
            (dc_target_of cfg st cpu_temp (max_ssd_of ssd_list ssd_count) -
              st.last_duty_cycle)
            (up_rate_of cfg.thermal
              (heat_trend_of st cpu_temp (max_ssd_of ssd_list ssd_count)))
            (hold_active_of st now)) - st.last_duty_cycle :=
        clamp01_add_ge hl1 (limited_change_ge cfg.thermal _ hu0 hd) hd
      linarith
    · rw [h1, dc_new_of_skip cfg st now cpu_temp _ hb hg hm hl0 hl1 hskip,
        sub_self]

/-- Witness for C2 at the default configuration and initial state. -/
theorem C2_rate_limit_invariant_witness :
    (0 ≤ default_config.thermal.up_rate_base_per_cycle ∧
     0 ≤ default_config.thermal.up_rate_trend_gain ∧
     0 ≤ default_config.thermal.up_rate_max_per_cycle ∧
     0 ≤ default_config.thermal.down_rate_per_cycle ∧
     0 ≤ thermal_state_init.last_duty_cycle ∧
     thermal_state_init.last_duty_cycle ≤ 1) ∧
    ((thermal_calculate_duty_cycle_smart default_config thermal_state_init 100 20 [] 0).1 -
       thermal_state_init.last_duty_cycle ≤
       default_config.thermal.up_rate_max_per_cycle ∧
     thermal_state_init.last_duty_cycle -
       (thermal_calculate_duty_cycle_smart default_config thermal_state_init 100 20 [] 0).1 ≤
       default_config.thermal.down_rate_per_cycle ∧
     (deadband_skip default_config thermal_state_init 20 (max_ssd_of [] 0) →
       (thermal_calculate_duty_cycle_smart default_config thermal_state_init 100 20 [] 0).1 -
         thermal_state_init.last_duty_cycle = 0)) :=
  ⟨by norm_num [default_config, thermal_state_init],
   C2_rate_limit_invariant default_config thermal_state_init 100 20 [] 0
     (by norm_num [default_config]) (by norm_num [default_config])
     (by norm_num [default_config]) (by norm_num [default_config])
     (by norm_num [thermal_state_init]) (by norm_num [thermal_state_init])
     (by simp [default_config])⟩

/-- C5: dead-band suppression happens exactly when the engine has been
stable for more than 5 cycles, the largest smoothed temperature delta is
within deadband_c, and the proposed target is within 0.15 of the last
duty cycle; when the three conditions hold the target is forced back to
last_duty_cycle and the cycle returns last_duty_cycle unchanged, and when
any condition fails the raw target passes through unchanged. -/
theorem C5_deadband_suppression (cfg : config_t) (st : thermal_state_t)
    (now : ℤ) (cpu_temp : ℚ) (ssd_list : List ℤ) (ssd_count : ℕ)
    (hen : cfg.fan_enabled = true)
    (hb : 0 ≤ cfg.thermal.up_rate_base_per_cycle)
    (hg : 0 ≤ cfg.thermal.up_rate_trend_gain)
    (hm : 0 ≤ cfg.thermal.up_rate_max_per_cycle)
    (hl0 : 0 ≤ st.last_duty_cycle) (hl1 : st.last_duty_cycle ≤ 1) :
    (deadband_skip cfg st cpu_temp (max_ssd_of ssd_list ssd_count) →
      dc_target_of cfg st cpu_temp (max_ssd_of ssd_list ssd_count) =
        st.last_duty_cycle ∧
      (thermal_calculate_duty_cycle_smart cfg st now cpu_temp ssd_list ssd_count).1 =
        st.last_duty_cycle) ∧
    (¬ deadband_skip cfg st cpu_temp (max_ssd_of ssd_list ssd_count) →
      dc_target_of cfg st cpu_temp (max_ssd_of ssd_list ssd_count) =
        dc_target_raw cfg st cpu_temp (max_ssd_of ssd_list ssd_count)) := by
  refine ⟨fun h => ⟨dc_target_of_skip _ _ _ _ h, ?_⟩,
    fun h => dc_target_of_noskip _ _ _ _ h⟩
  rw [smart_fst cfg st now cpu_temp ssd_list ssd_count hen]
  exact dc_new_of_skip cfg st now cpu_temp _ hb hg hm hl0 hl1 h

/-- Witness for C5 at a state that has been stable for 6 cycles with flat
zero temperatures. -/
theorem C5_deadband_suppression_witness :
    (default_config.fan_enabled = true ∧
     0 ≤ default_config.thermal.up_rate_base_per_cycle ∧
     0 ≤ default_config.thermal.up_rate_trend_gain ∧
     0 ≤ default_config.thermal.up_rate_max_per_cycle ∧
     0 ≤ stable6_state.last_duty_cycle ∧ stable6_state.last_duty_cycle ≤ 1) ∧
    ((deadband_skip default_config stable6_state 0 (max_ssd_of [] 0) →
      dc_target_of default_config stable6_state 0 (max_ssd_of [] 0) =
        stable6_state.last_duty_cycle ∧
      (thermal_calculate_duty_cycle_smart default_config stable6_state 100 0 [] 0).1 =
        stable6_state.last_duty_cycle) ∧
     (¬ deadband_skip default_config stable6_state 0 (max_ssd_of [] 0) →
      dc_target_of default_config stable6_state 0 (max_ssd_of [] 0) =
        dc_target_raw default_config stable6_state 0 (max_ssd_of [] 0))) :=
  ⟨⟨rfl, by norm_num [default_config], by norm_num [default_config],
    by norm_num [default_config], by norm_num [stable6_state],
    by norm_num [stable6_state]⟩,
   C5_deadband_suppression default_config stable6_state 100 0 [] 0 rfl
     (by norm_num [default_config]) (by norm_num [default_config])
     (by norm_num [default_config]) (by norm_num [stable6_state])
     (by norm_num [stable6_state])⟩

/-- C6: in every enabled cycle, a final duty equal to the prior one
increments stable_cycles by exactly 1 and any other final duty resets it
to 0; a final duty strictly greater than the prior one restarts the
cooldown hold at now plus cooldown_hold_sec (stated for an integral
number of seconds, matching the C cast of the tunable to time_t), while
an equal or decreased duty leaves hold_until unchanged. -/
theorem C6_stability_bookkeeping (cfg : config_t) (st : thermal_state_t)
    (now : ℤ) (cpu_temp : ℚ) (ssd_list : List ℤ) (ssd_count : ℕ)
    (hen : cfg.fan_enabled = true) (c : ℤ)
    (hc : cfg.thermal.cooldown_hold_sec = (c : ℚ)) :
    ((thermal_calculate_duty_cycle_smart cfg st now cpu_temp ssd_list ssd_count).1 =
        st.last_duty_cycle →
      (thermal_calculate_duty_cycle_smart cfg st now cpu_temp ssd_list ssd_count).2.stable_cycles =
        st.stable_cycles + 1) ∧
    ((thermal_calculate_duty_cycle_smart cfg st now cpu_temp ssd_list ssd_count).1 ≠
        st.last_duty_cycle →
      (thermal_calculate_duty_cycle_smart cfg st now cpu_temp ssd_list ssd_count).2.stable_cycles =
        0) ∧
    ((thermal_calculate_duty_cycle_smart cfg st now cpu_temp ssd_list ssd_count).1 >
        st.last_duty_cycle →
      (thermal_calculate_duty_cycle_smart cfg st now cpu_temp ssd_list ssd_count).2.hold_until =
        now + c) ∧
    ((thermal_calculate_duty_cycle_smart cfg st now cpu_temp ssd_list ssd_count).1 ≤
        st.last_duty_cycle →
      (thermal_calculate_duty_cycle_smart cfg st now cpu_temp ssd_list ssd_count).2.hold_until =
        st.hold_until) := by
  have hs := smart_snd_stable cfg st now cpu_temp ssd_list ssd_count hen
  have hh := smart_snd_hold cfg st now cpu_temp ssd_list ssd_count hen
  refine ⟨fun h => ?_, fun h => ?_, fun h => ?_, fun h => ?_⟩
  · rw [hs, if_pos h]
  · rw [hs, if_neg h]
  · rw [hh, if_pos h, hc, truncQ_intCast]
  · rw [hh, if_neg (not_lt.mpr h)]

/-- Witness for C6 at the default configuration, whose cooldown hold is
the integer 20 seconds. -/
theorem C6_stability_bookkeeping_witness :
    (default_config.fan_enabled = true ∧
     default_config.thermal.cooldown_hold_sec = ((20 : ℤ) : ℚ)) ∧
    (((thermal_calculate_duty_cycle_smart default_config thermal_state_init 100 20 [] 0).1 =
        thermal_state_init.last_duty_cycle →
      (thermal_calculate_duty_cycle_smart default_config thermal_state_init 100 20 [] 0).2.stable_cycles =
        thermal_state_init.stable_cycles + 1) ∧
     ((thermal_calculate_duty_cycle_smart default_config thermal_state_init 100 20 [] 0).1 ≠
        thermal_state_init.last_duty_cycle →
      (thermal_calculate_duty_cycle_smart default_config thermal_state_init 100 20 [] 0).2.stable_cycles =
        0) ∧
     ((thermal_calculate_duty_cycle_smart default_config thermal_state_init 100 20 [] 0).1 >
        thermal_state_init.last_duty_cycle →
      (thermal_calculate_duty_cycle_smart default_config thermal_state_init 100 20 [] 0).2.hold_until =
        100 + 20) ∧
     ((thermal_calculate_duty_cycle_smart default_config thermal_state_init 100 20 [] 0).1 ≤
        thermal_state_init.last_duty_cycle →
      (thermal_calculate_duty_cycle_smart default_config thermal_state_init 100 20 [] 0).2.hold_until =
        thermal_state_init.hold_until)) :=
  ⟨⟨rfl, by norm_num [default_config]⟩,
   C6_stability_bookkeeping default_config thermal_state_init 100 20 [] 0 rfl
     20 (by norm_num [default_config])⟩

/-- C9: a dead-band no-op cycle counts as stable: under the suppression
condition the cycle returns the previous duty, stable_cycles is
incremented rather than reset, and since the entry condition requires
more than 5 stable cycles the incremented counter again exceeds 5, so
suppression can persist while the temperature and target conditions
hold. -/
theorem C9_deadband_counts_as_stable (cfg : config_t) (st : thermal_state_t)
    (now : ℤ) (cpu_temp : ℚ) (ssd_list : List ℤ) (ssd_count : ℕ)
    (hen : cfg.fan_enabled = true)
    (hb : 0 ≤ cfg.thermal.up_rate_base_per_cycle)
    (hg : 0 ≤ cfg.thermal.up_rate_trend_gain)
    (hm : 0 ≤ cfg.thermal.up_rate_max_per_cycle)
    (hl0 : 0 ≤ st.last_duty_cycle) (hl1 : st.last_duty_cycle ≤ 1)
    (hdb : deadband_skip cfg st cpu_temp (max_ssd_of ssd_list ssd_count)) :
    (thermal_calculate_duty_cycle_smart cfg st now cpu_temp ssd_list ssd_count).2.stable_cycles =
      st.stable_cycles + 1 ∧
    5 < (thermal_calculate_duty_cycle_smart cfg st now cpu_temp ssd_list ssd_count).2.stable_cycles := by
  have hnoop : (thermal_calculate_duty_cycle_smart cfg st now cpu_temp ssd_list ssd_count).1 =
      st.last_duty_cycle := by
    rw [smart_fst cfg st now cpu_temp ssd_list ssd_count hen]
    exact dc_new_of_skip cfg st now cpu_temp _ hb hg hm hl0 hl1 hdb
  have hs := smart_snd_stable cfg st now cpu_temp ssd_list ssd_count hen
  rw [hs, if_pos hnoop]
  have h5 := hdb.1
  omega

/-- Witness for C9 at the stable-for-six-cycles flat state. -/
theorem C9_deadband_counts_as_stable_witness :
    deadband_skip default_config stable6_state 0 (max_ssd_of [] 0) ∧
    ((thermal_calculate_duty_cycle_smart default_config stable6_state 100 0 [] 0).2.stable_cycles =
       stable6_state.stable_cycles + 1 ∧
     5 < (thermal_calculate_duty_cycle_smart default_config stable6_state 100 0 [] 0).2.stable_cycles) :=
  ⟨by norm_num [deadband_skip, dc_target_raw, max_temp_change_of,
     cpu_avg_of, ssd_avg_of, cpu_trend_of, ssd_trend_of, ingest_state,
     calculate_moving_average, calculate_moving_average_int,
     calculate_temp_trend, calculate_temp_trend_int,
     config_temp_to_dc_with_hysteresis, max_ssd_of, default_config,
     stable6_state, TEMP_HISTORY_SIZE, MAX_DEVICES],
   C9_deadband_counts_as_stable default_config stable6_state 100 0 [] 0 rfl
     (by norm_num [default_config]) (by norm_num [default_config])
     (by norm_num [default_config]) (by norm_num [stable6_state])
     (by norm_num [stable6_state])
     (by norm_num [deadband_skip, dc_target_raw, max_temp_change_of,
       cpu_avg_of, ssd_avg_of, cpu_trend_of, ssd_trend_of, ingest_state,
       calculate_moving_average, calculate_moving_average_int,
       calculate_temp_trend, calculate_temp_trend_int,
       config_temp_to_dc_with_hysteresis, max_ssd_of, default_config,
       stable6_state, TEMP_HISTORY_SIZE, MAX_DEVICES])⟩

/-- C3: on a decrease cycle (post-dead-band target strictly below the
current duty, with non-negative rate tunables, a duty state in the unit
interval and a non-negative clock), an active cooldown hold suppresses
the decrease entirely so the cycle returns last_duty_cycle, and without a
hold the decrease is clamped to down_rate_per_cycle in magnitude: the
cycle returns the larger of the target and last_duty_cycle minus
down_rate_per_cycle. -/
theorem C3_decrease_path (cfg : config_t) (st : thermal_state_t) (now : ℤ)
    (cpu_temp : ℚ) (ssd_list : List ℤ) (ssd_count : ℕ)
    (hen : cfg.fan_enabled = true) (hnow : 0 ≤ now)
    (hb : 0 ≤ cfg.thermal.up_rate_base_per_cycle)
    (hg : 0 ≤ cfg.thermal.up_rate_trend_gain)
    (hm : 0 ≤ cfg.thermal.up_rate_max_per_cycle)
    (hd : 0 ≤ cfg.thermal.down_rate_per_cycle)
    (hl0 : 0 ≤ st.last_duty_cycle) (hl1 : st.last_duty_cycle ≤ 1)
    (htgt : dc_target_of cfg st cpu_temp (max_ssd_of ssd_list ssd_count) <
      st.last_duty_cycle) :
    (now < st.hold_until →
      (thermal_calculate_duty_cycle_smart cfg st now cpu_temp ssd_list ssd_count).1 =
        st.last_duty_cycle) ∧
    (st.hold_until ≤ now →
      (thermal_calculate_duty_cycle_smart cfg st now cpu_temp ssd_list ssd_count).1 =
        max (dc_target_of cfg st cpu_temp (max_ssd_of ssd_list ssd_count))
          (st.last_duty_cycle - cfg.thermal.down_rate_per_cycle)) := by
  refine ⟨fun hlt => ?_, fun hle => ?_⟩
  · have hne : st.hold_until ≠ 0 := by omega
    rw [smart_fst cfg st now cpu_temp ssd_list ssd_count hen]
    exact dc_new_of_decrease_hold cfg st now cpu_temp _ hb hg hm hl0 hl1
      (hold_active_of_true hne hlt) htgt
  · rw [smart_fst cfg st now cpu_temp ssd_list ssd_count hen]
    exact dc_new_of_decrease_nohold cfg st now cpu_temp _ hb hg hm hd hl0 hl1
      (hold_active_of_false hle) htgt

/-- Witness for C3 at a cool reading with current duty one half: the
target evaluates to 0, strictly below the duty of one half. -/
theorem C3_decrease_path_witness :
    (0 : ℤ) ≤ 100 ∧
    dc_target_of default_config half_duty_state 20 (max_ssd_of [] 0) <
      half_duty_state.last_duty_cycle ∧
    ((100 : ℤ) < half_duty_state.hold_until →
      (thermal_calculate_duty_cycle_smart default_config half_duty_state 100 20 [] 0).1 =
        half_duty_state.last_duty_cycle) ∧
    (half_duty_state.hold_until ≤ (100 : ℤ) →
      (thermal_calculate_duty_cycle_smart default_config half_duty_state 100 20 [] 0).1 =
        max (dc_target_of default_config half_duty_state 20 (max_ssd_of [] 0))
          (half_duty_state.last_duty_cycle -
            default_config.thermal.down_rate_per_cycle)) := by
  have htgt : dc_target_of default_config half_duty_state 20 (max_ssd_of [] 0) <
      half_duty_state.last_duty_cycle := by
    norm_num [dc_target_of, deadband_skip, dc_target_raw, max_temp_change_of,
      cpu_avg_of, ssd_avg_of, cpu_trend_of, ssd_trend_of, ingest_state,
      calculate_moving_average, calculate_moving_average_int,
      calculate_temp_trend, calculate_temp_trend_int,
      config_temp_to_dc_with_hysteresis, max_ssd_of, default_config,
      half_duty_state, TEMP_HISTORY_SIZE, MAX_DEVICES]
  have hcl := C3_decrease_path default_config half_duty_state 100 20 [] 0 rfl
    (by norm_num) (by norm_num [default_config]) (by norm_num [default_config])
    (by norm_num [default_config]) (by norm_num [default_config])
    (by norm_num [half_duty_state]) (by norm_num [half_duty_state]) htgt
  exact ⟨by norm_num, htgt, hcl.1, hcl.2⟩

/-- C7 counterexample: with the 40000 ns hardware period and the duty
1/80000 (inside the unit interval), the value written to the duty_cycle
node is 0 while the nearest-integer rounding of period times duty is 1,
so the written value is not round(period times duty). -/
theorem C7_cex_truncation_not_rounding :
    (fan_set_duty_cycle hw_fan (1/80000) true).written_ns = some 0 ∧
    round ((hw_fan.pwm_period_ns : ℚ) * (1/80000)) = 1 := by
  constructor
  · have h : truncQ ((hw_fan.pwm_period_ns : ℚ) * (1/80000)) = 0 := by
      rw [truncQ_eq_floor (by norm_num [hw_fan, PWM_PERIOD_NS])]
      norm_num [hw_fan, PWM_PERIOD_NS]
    norm_num [fan_set_duty_cycle, hw_fan, PWM_PERIOD_NS] at h ⊢
    norm_num [h]
  · norm_num [hw_fan, PWM_PERIOD_NS, round_eq]

/-- C7 amended: on the hardware PWM backend with a non-negative period
and a requested duty already inside the unit interval, the written
duty_cycle value is the floor (truncation toward zero, as the C int cast
behaves) of period times duty, not its nearest-integer rounding. -/
theorem C7_duty_ns_truncates (fan : fan_t) (d : ℚ)
    (hhw : fan.use_hardware_pwm = true) (hp : 0 ≤ fan.pwm_period_ns)
    (h0 : 0 ≤ d) (h1 : d ≤ 1) :
    (fan_set_duty_cycle fan d true).written_ns =
      some ⌊(fan.pwm_period_ns : ℚ) * d⌋ := by
  have hnn : (0 : ℚ) ≤ (fan.pwm_period_ns : ℚ) * d :=
    mul_nonneg (by exact_mod_cast hp) h0
  have hcl : (if d < 0 then (0 : ℚ) else if d > 1 then 1 else d) = d := by
    rw [if_neg (not_lt.mpr h0), if_neg (not_lt.mpr h1)]
  simp only [fan_set_duty_cycle, hhw, if_true, hcl]
  rw [truncQ_eq_floor hnn]

/-- Witness for the amended C7 at period 40000 ns and duty one half. -/
theorem C7_duty_ns_truncates_witness :
    hw_fan.use_hardware_pwm = true ∧
    (0 : ℤ) ≤ hw_fan.pwm_period_ns ∧
    (0 : ℚ) ≤ 1/2 ∧ (1/2 : ℚ) ≤ 1 ∧
    (fan_set_duty_cycle hw_fan (1/2) true).written_ns =
      some ⌊(hw_fan.pwm_period_ns : ℚ) * (1/2)⌋ :=
  ⟨rfl, by norm_num [hw_fan, PWM_PERIOD_NS], by norm_num, by norm_num,
   C7_duty_ns_truncates hw_fan (1/2) rfl (by norm_num [hw_fan, PWM_PERIOD_NS])
     (by norm_num) (by norm_num)⟩

/-- C8 counterexample: starting from the initial last_dc of -1, a cycle
computing duty one half calls the setter (whose write fails), last_dc
becomes one half anyway, and the next cycle with the same computed duty
does not call fan_set_duty_cycle again; the failed write is therefore not
retried while the computed duty stays unchanged. -/
theorem C8_cex_no_retry_when_duty_unchanged :
    (main_loop_step (-1) (1/2) true).1 = true ∧
    (main_loop_step (main_loop_step (-1) (1/2) true).2 (1/2) false).1 = false := by
  constructor
  · norm_num [main_loop_step]
  · norm_num [main_loop_step]

/-- C8 amended: the main loop calls fan_set_duty_cycle exactly when the
newly computed duty differs from the previously computed one, and last_dc
tracks the computed duty regardless of whether the write failed, so a
failed hardware write is retried only once the computed duty changes
again. -/
theorem C8_setter_called_iff_duty_changed (last_dc dc : ℚ) (failed : Bool) :
    ((main_loop_step last_dc dc failed).1 = true ↔ dc ≠ last_dc) ∧
    (main_loop_step last_dc dc failed).2 = dc ∧
    main_loop_step last_dc dc true = main_loop_step last_dc dc false := by
  refine ⟨?_, ?_, rfl⟩
  · unfold main_loop_step
    split_ifs with h
    · simpa using h
    · simpa using h
  · unfold main_loop_step
    split_ifs with h
    · rfl
    · exact (not_not.mp h).symm
